import Mathlib

/-!
Verification of the blob addressing / metadata-indirection core of the
Federise deploy gateway.

The embedding models the three source files:
  * `BlobUploadEndpoint.handle`       (direct streamed upload)
  * `registerBlobDownloadRoute`       (streaming download route)
  * `BlobGetEndpoint.handle`          (get-reference)
  * `BlobPresignUploadEndpoint.handle`(presigned-URL upload)

The two R2 buckets (private / public) and the KV metadata store are modelled
as partial maps `String → Option _`.  `JSON.stringify`/`JSON.parse` of a
metadata record round-trips, so KV is modelled as storing `BlobMetadata`
values directly.  Nondeterministic collaborators (clock, URL signer,
`encodeURIComponent`) are passed in as parameters.
-/

namespace FederiseDeploy

/-- A stored R2 object: the byte payload plus the `httpMetadata.contentType`
attached at `bucket.put` time. -/
structure R2Object where
  body : List Nat
  contentType : String
deriving DecidableEq, Repr

/-- The `BlobMetadata` record persisted (JSON-serialized) in KV, as built by
the upload and presign handlers. -/
structure BlobMetadata where
  key : String
  namespace' : String
  size : Nat
  contentType : String
  uploadedAt : String
  isPublic : Bool
deriving DecidableEq, Repr

/-- The three backing stores of the environment: `KV` (metadata),
`R2` (private bucket) and `R2_PUBLIC` (public bucket). -/
structure Stores where
  KV : String → Option BlobMetadata
  R2 : String → Option R2Object
  R2_PUBLIC : String → Option R2Object

/-- Point update of a partial map (a `put` into a store). -/
def upd {α : Type} (f : String → Option α) (k : String) (v : α) : String → Option α :=
  fun q => if q = k then some v else f q

/-- JS truthiness test for an optional string (a missing header/env var and
the empty string are both falsy). -/
def strFalsy : Option String → Bool
  | none => true
  | some s => s = ""

/-- JS `x || d` for an optional string: yields `d` when `x` is falsy. -/
def orDefault (x : Option String) (d : String) : String :=
  match x with
  | none => d
  | some s => if s = "" then d else s

/-! ### Key derivation, one definition per source occurrence

Each handler builds its R2 key and KV key inline with a template literal;
we give each occurrence its own named definition so that agreement between
the operations is a provable statement, not a definitional accident. -/

/-- `part_000` line 64: `` const r2Key = `${namespace}:${key}` ``. -/
def upload_r2Key (ns key : String) : String := ns ++ ":" ++ key

/-- `part_000` line 83: `` const kvKey = `__BLOB:${namespace}:${key}` ``. -/
def upload_kvKey (ns key : String) : String := "__BLOB:" ++ ns ++ ":" ++ key

/-- `part_001` line 22: `` const r2Key = `${namespace}:${key}` ``. -/
def download_r2Key (ns key : String) : String := ns ++ ":" ++ key

/-- `part_001` line 14: `` const kvKey = `__BLOB:${namespace}:${key}` ``. -/
def download_kvKey (ns key : String) : String := "__BLOB:" ++ ns ++ ":" ++ key

/-- `get.ts` line 44: `` const kvKey = `__BLOB:${namespace}:${key}` ``. -/
def getRef_kvKey (ns key : String) : String := "__BLOB:" ++ ns ++ ":" ++ key

/-- `get.ts` line 135: `` const r2Key = `${namespace}:${key}` ``. -/
def presign_r2Key (ns key : String) : String := ns ++ ":" ++ key

/-- `get.ts` line 169: `` const kvKey = `__BLOB:${namespace}:${key}` ``. -/
def presign_kvKey (ns key : String) : String := "__BLOB:" ++ ns ++ ":" ++ key

/-! ### Direct upload (`BlobUploadEndpoint.handle`, part_000) -/

/-- Result of the direct upload handler.  `ok` is the 200 response carrying
the stored metadata; `badRequest` is the 400 `c.json` response; `putThrew`
models `bucket.put` rejecting (the exception propagates out of `handle`,
surfacing as a 5xx). -/
inductive UploadResult where
  | ok (metadata : BlobMetadata)
  | badRequest (message : String)
  | putThrew
deriving DecidableEq, Repr

/-- HTTP status of each upload outcome (200 / 400 from the `c.json` calls;
an escaped exception surfaces as 500). -/
def UploadResult.status : UploadResult → Nat
  | .ok _ => 200
  | .badRequest _ => 400
  | .putThrew => 500

/-- Store-write events of one upload invocation, in execution order. -/
inductive UploadEvent where
  | objectPut (isPublic : Bool) (r2Key : String) (body : List Nat) (contentType : String)
  | kvPut (kvKey : String) (value : BlobMetadata)
deriving DecidableEq, Repr

/-- `BlobUploadEndpoint.handle` (part_000 lines 44–87).  Headers arrive as
`Option String` (absent = `undefined`).  `now` is `new Date().toISOString()`.
`objectPutFails` injects a rejection of the `bucket.put` call; when it
throws, the exception propagates before the KV write is reached.
Returns the response, the final stores, and the ordered store-write trace. -/
def BlobUploadEndpoint.handle (s : Stores)
    (nsHeader keyHeader pubHeader ctHeader : Option String)
    (body : List Nat) (now : String) (objectPutFails : Bool) :
    UploadResult × Stores × List UploadEvent :=
  let isPublic : Bool := pubHeader = some "true"
  let contentType := orDefault ctHeader "application/octet-stream"
  if strFalsy nsHeader || strFalsy keyHeader then
    (.badRequest "Missing x-blob-namespace or x-blob-key header", s, [])
  else
    let ns := nsHeader.getD ""
    let key := keyHeader.getD ""
    let size := body.length
    if size = 0 then
      (.badRequest "Empty file", s, [])
    else
      let r2Key := upload_r2Key ns key
      if objectPutFails then
        (.putThrew, s, [])
      else
        let obj : R2Object := ⟨body, contentType⟩
        let s1 := if isPublic
          then { s with R2_PUBLIC := upd s.R2_PUBLIC r2Key obj }
          else { s with R2 := upd s.R2 r2Key obj }
        let metadata : BlobMetadata :=
          { key := key, namespace' := ns, size := size, contentType := contentType
            uploadedAt := now, isPublic := isPublic }
        let kvKey := upload_kvKey ns key
        let s2 := { s1 with KV := upd s1.KV kvKey metadata }
        (.ok metadata, s2, [.objectPut isPublic r2Key body contentType, .kvPut kvKey metadata])

/-! ### Streaming download (`registerBlobDownloadRoute`, part_001) -/

/-- Result of the download route.  `ok` carries the streamed body and the
`Content-Type` / `Content-Length` headers (`Content-Length` is the decimal
rendering of the `Nat`; the route also sets a `Content-Disposition`
attachment header built from `encodeURIComponent(key)`, which no claim
references and which carries no blob data, so it is not modelled).
`blobNotFound` is the 404 "Blob not found" (no metadata); `objectNotFound`
is the 404 "Blob not found in storage" (metadata present, object absent). -/
inductive DownloadResult where
  | ok (body : List Nat) (contentType : String) (contentLength : Nat)
  | badRequest (message : String)
  | blobNotFound
  | objectNotFound
deriving DecidableEq, Repr

/-- HTTP status of each download outcome. -/
def DownloadResult.status : DownloadResult → Nat
  | .ok _ _ _ => 200
  | .badRequest _ => 400
  | .blobNotFound => 404
  | .objectNotFound => 404

/-- The handler of `app.get("/blob/download/:namespace/:key", ...)`
(part_001 lines 5–44).  Path params arrive as strings; the route rejects
falsy (empty) ones with 400.  Read-only: returns just the response. -/
def registerBlobDownloadRoute.handle (s : Stores) (ns key : String) : DownloadResult :=
  if ns = "" || key = "" then
    .badRequest "Missing namespace or key"
  else
    let kvKey := download_kvKey ns key
    match s.KV kvKey with
    | none => .blobNotFound
    | some metadata =>
      let r2Key := download_r2Key ns key
      let bucket := if metadata.isPublic then s.R2_PUBLIC else s.R2
      match bucket r2Key with
      | none => .objectNotFound
      | some object =>
        .ok object.body (orDefault (some metadata.contentType) "application/octet-stream")
          metadata.size

/-! ### Get-reference (`BlobGetEndpoint.handle`, get.ts lines 39–62) -/

/-- Result of the get-reference endpoint: the 200 response `{url, metadata}`
or the 404 "Blob not found". -/
inductive GetRefResult where
  | ok (url : String) (metadata : BlobMetadata)
  | blobNotFound
deriving DecidableEq, Repr

/-- HTTP status of each get-reference outcome. -/
def GetRefResult.status : GetRefResult → Nat
  | .ok _ _ => 200
  | .blobNotFound => 404

/-- The metadata of a successful get-reference response. -/
def GetRefResult.metadata? : GetRefResult → Option BlobMetadata
  | .ok _ m => some m
  | .blobNotFound => none

/-- `BlobGetEndpoint.handle`.  The validated body fields `namespace`/`key`
arrive as strings; `gatewayOrigin` is `new URL(c.req.url).origin` and
`encodeURIComponent` is the JS percent-encoder, both passed in as
collaborators. -/
def BlobGetEndpoint.handle (s : Stores) (ns key : String)
    (gatewayOrigin : String) (encodeURIComponent : String → String) : GetRefResult :=
  let kvKey := getRef_kvKey ns key
  match s.KV kvKey with
  | none => .blobNotFound
  | some metadata =>
    .ok (gatewayOrigin ++ "/blob/download/" ++ encodeURIComponent ns ++ "/"
          ++ encodeURIComponent key) metadata

/-! ### Presigned upload (`BlobPresignUploadEndpoint.handle`, get.ts lines 118–173) -/

/-- The three R2 credential env vars checked at the top of the presign
handler (absent = `undefined`, modelled as `none`; the empty string is
falsy too). -/
structure PresignEnvCreds where
  R2_ACCOUNT_ID : Option String
  R2_ACCESS_KEY_ID : Option String
  R2_SECRET_ACCESS_KEY : Option String

/-- A syntactically well-formed JSON presign request body, before zod
validation.  `size` is an `Int` (zod further requires `.int().positive()`;
integrality is inherent in this model).  `isPublic` is optional with zod
default `false`. -/
structure PresignBodyRaw where
  namespace' : String
  key : String
  contentType : String
  size : Int
  isPublic : Option Bool
deriving DecidableEq, Repr

/-- Modelled from the spec: `NamespaceValue`, the request schema for the
`namespace` field, is defined in `src/types.ts`, which is not part of this
repository snapshot.  Per the spec (§4.1), inputs are "non-empty `namespace`
and `key` strings", so the modelled schema accepts exactly the non-empty
strings.  (The `key` field's schema IS in the snapshot: plain `z.string()`,
which also accepts the empty string.) -/
def NamespaceValue.accepts (ns : String) : Bool := ns ≠ ""

/-- `PresignUploadRequest.safeParse` success predicate (get.ts lines 75–81):
`namespace` must satisfy `NamespaceValue`, `key`/`contentType` are plain
strings, `size` must be a positive integer, `isPublic` defaults to false. -/
def PresignUploadRequest.parseOk (b : PresignBodyRaw) : Bool :=
  NamespaceValue.accepts b.namespace' && (0 < b.size)

/-- Result of the presign handler: the 200 response `{uploadUrl, expiresAt}`,
the 400 "Invalid request body", the 503 "R2 credentials not configured for
presigned URLs", or an exception escaping from `c.req.json()` on a
malformed body (surfacing as a 5xx). -/
inductive PresignResult where
  | ok (uploadUrl expiresAt : String)
  | invalidRequest
  | signingUnavailable
  | jsonThrew
deriving DecidableEq, Repr

/-- HTTP status of each presign outcome (200 / 400 / 503 from the `c.json`
calls; an escaped exception surfaces as 500). -/
def PresignResult.status : PresignResult → Nat
  | .ok _ _ => 200
  | .invalidRequest => 400
  | .signingUnavailable => 503
  | .jsonThrew => 500

/-- `BlobPresignUploadEndpoint.handle`.  `rawBody` is `none` when
`c.req.json()` would throw (malformed JSON).  `sign bucketName r2Key
contentType size` stands for `getSignedUrl` on the `PutObjectCommand` with
those parameters; `now`/`expiresAt` are the two `toISOString()` results.
Returns the response, the final stores, and whether the signer was invoked. -/
def BlobPresignUploadEndpoint.handle (s : Stores) (env : PresignEnvCreds)
    (rawBody : Option PresignBodyRaw)
    (sign : String → String → String → Int → String)
    (now expiresAt : String) : PresignResult × Stores × Bool :=
  if strFalsy env.R2_ACCOUNT_ID || strFalsy env.R2_ACCESS_KEY_ID
      || strFalsy env.R2_SECRET_ACCESS_KEY then
    (.signingUnavailable, s, false)
  else
    match rawBody with
    | none => (.jsonThrew, s, false)
    | some body =>
      if ¬ PresignUploadRequest.parseOk body then
        (.invalidRequest, s, false)
      else
        let isPublic := body.isPublic.getD false
        let bucketName := if isPublic then "federise-objects-public" else "federise-objects"
        let r2Key := presign_r2Key body.namespace' body.key
        let uploadUrl := sign bucketName r2Key body.contentType body.size
        let metadata : BlobMetadata :=
          { key := body.key, namespace' := body.namespace', size := body.size.toNat
            contentType := body.contentType, uploadedAt := now, isPublic := isPublic }
        let kvKey := presign_kvKey body.namespace' body.key
        (.ok uploadUrl expiresAt, { s with KV := upd s.KV kvKey metadata }, true)

/-! ### Helper definitions and lemmas -/

/-- The stores of a fresh environment: nothing persisted anywhere. -/
def emptyStores : Stores := ⟨fun _ => none, fun _ => none, fun _ => none⟩

/-- The `BlobMetadata` record the upload handler constructs in its success
branch (part_000 lines 74–81). -/
def uploadedMetadata (ns key : String) (pubHeader ctHeader : Option String)
    (size : Nat) (now : String) : BlobMetadata :=
  { key := key, namespace' := ns, size := size
    contentType := orDefault ctHeader "application/octet-stream"
    uploadedAt := now, isPublic := pubHeader = some "true" }

/-- The `metadata` record the presign handler persists (get.ts lines 160–167). -/
def presignMetadata (b : PresignBodyRaw) (now : String) : BlobMetadata :=
  { key := b.key, namespace' := b.namespace', size := b.size.toNat
    contentType := b.contentType, uploadedAt := now
    isPublic := b.isPublic.getD false }

/-- The credential check at the top of the presign handler (get.ts line 120),
phrased positively: all three env vars are present and truthy. -/
def PresignEnvCreds.configured (e : PresignEnvCreds) : Bool :=
  !(strFalsy e.R2_ACCOUNT_ID || strFalsy e.R2_ACCESS_KEY_ID
    || strFalsy e.R2_SECRET_ACCESS_KEY)

lemma upd_same {α : Type} (f : String → Option α) (k : String) (v : α) :
    upd f k v k = some v := by simp [upd]

lemma upd_other {α : Type} (f : String → Option α) (k q : String) (v : α) (h : q ≠ k) :
    upd f k v q = f q := by simp [upd, h]

lemma strFalsy_some (s : String) : strFalsy (some s) = decide (s = "") := rfl

lemma orDefault_ne_empty (x : Option String) (d : String) (hd : d ≠ "") :
    orDefault x d ≠ "" := by
  cases x with
  | none => simpa [orDefault] using hd
  | some s =>
    by_cases h : s = "" <;> simp [orDefault, h, hd]

lemma orDefault_some_of_ne (s d : String) (h : s ≠ "") : orDefault (some s) d = s := by
  simp [orDefault, h]

/-- Success-branch characterisation of the direct upload handler: with
non-falsy identifiers, a non-empty body and no injected failure, the
handler returns the recorded metadata, writes the object into the bucket
selected by the visibility header, and writes that metadata under the
derived KV key. -/
lemma upload_success (s : Stores) (ns key : String) (pubHeader ctHeader : Option String)
    (body : List Nat) (now : String)
    (hns : ns ≠ "") (hkey : key ≠ "") (hbody : body ≠ []) :
    BlobUploadEndpoint.handle s (some ns) (some key) pubHeader ctHeader body now false
      = (.ok (uploadedMetadata ns key pubHeader ctHeader body.length now),
         { KV := upd s.KV (upload_kvKey ns key)
             (uploadedMetadata ns key pubHeader ctHeader body.length now)
           R2 := if (pubHeader = some "true" : Bool) then s.R2
             else upd s.R2 (upload_r2Key ns key)
               ⟨body, orDefault ctHeader "application/octet-stream"⟩
           R2_PUBLIC := if (pubHeader = some "true" : Bool)
             then upd s.R2_PUBLIC (upload_r2Key ns key)
               ⟨body, orDefault ctHeader "application/octet-stream"⟩
             else s.R2_PUBLIC },
         [.objectPut (pubHeader = some "true") (upload_r2Key ns key) body
            (orDefault ctHeader "application/octet-stream"),
          .kvPut (upload_kvKey ns key)
            (uploadedMetadata ns key pubHeader ctHeader body.length now)]) := by
  have hlen : body.length ≠ 0 := by simpa [List.length_eq_zero] using hbody
  by_cases hp : pubHeader = some "true" <;>
    simp [BlobUploadEndpoint.handle, strFalsy, hns, hkey, hlen, hp, uploadedMetadata]

/-- C1: for every valid non-empty namespace, non-empty key, non-empty byte
payload and visibility header, a direct upload followed immediately by a
stream-download of the same (namespace, key) returns byte-identical content,
and the download's declared Content-Type and Content-Length equal the
contentType and size recorded in the metadata returned at upload. -/
theorem upload_then_download_roundtrip
    (s : Stores) (ns key : String) (pubHeader ctHeader : Option String)
    (body : List Nat) (now : String)
    (hns : ns ≠ "") (hkey : key ≠ "") (hbody : body ≠ []) :
    (BlobUploadEndpoint.handle s (some ns) (some key) pubHeader ctHeader body now false).1
      = .ok (uploadedMetadata ns key pubHeader ctHeader body.length now) ∧
    registerBlobDownloadRoute.handle
      (BlobUploadEndpoint.handle s (some ns) (some key) pubHeader ctHeader body now false).2.1
      ns key
      = .ok body (uploadedMetadata ns key pubHeader ctHeader body.length now).contentType
          (uploadedMetadata ns key pubHeader ctHeader body.length now).size := by
  rw [upload_success s ns key pubHeader ctHeader body now hns hkey hbody]
  refine ⟨rfl, ?_⟩
  have hct : orDefault ctHeader "application/octet-stream" ≠ "" :=
    orDefault_ne_empty ctHeader _ (by decide)
  by_cases hp : pubHeader = some "true" <;>
    simp [registerBlobDownloadRoute.handle, hns, hkey, download_kvKey, upload_kvKey,
      download_r2Key, upload_r2Key, upd_same, uploadedMetadata, hp,
      orDefault_some_of_ne _ _ hct]

/-- Witness for C1 at the spec §8 concrete scenario: namespace "docs",
key "readme.txt", body "hello" (5 bytes), contentType "text/plain",
private visibility. -/
theorem upload_then_download_roundtrip_witness :
    (BlobUploadEndpoint.handle emptyStores (some "docs") (some "readme.txt") none
        (some "text/plain") [104, 101, 108, 108, 111] "2024-01-01T00:00:00.000Z" false).1
      = .ok (uploadedMetadata "docs" "readme.txt" none (some "text/plain")
          ([104, 101, 108, 108, 111] : List Nat).length "2024-01-01T00:00:00.000Z") ∧
    registerBlobDownloadRoute.handle
      (BlobUploadEndpoint.handle emptyStores (some "docs") (some "readme.txt") none
        (some "text/plain") [104, 101, 108, 108, 111] "2024-01-01T00:00:00.000Z" false).2.1
      "docs" "readme.txt"
      = .ok [104, 101, 108, 108, 111]
          (uploadedMetadata "docs" "readme.txt" none (some "text/plain")
            ([104, 101, 108, 108, 111] : List Nat).length "2024-01-01T00:00:00.000Z").contentType
          (uploadedMetadata "docs" "readme.txt" none (some "text/plain")
            ([104, 101, 108, 108, 111] : List Nat).length "2024-01-01T00:00:00.000Z").size :=
  upload_then_download_roundtrip emptyStores "docs" "readme.txt" none (some "text/plain")
    [104, 101, 108, 108, 111] "2024-01-01T00:00:00.000Z"
    (by decide) (by decide) (by decide)

/-- C2: in the direct upload, the metadata record is written only after the
object-store write has succeeded, never before.  Whenever the metadata store
changed at all, the injected object-store failure was absent and the
store-write trace is exactly the object put followed by the KV put; by
contraposition, when the object-store write fails (`objectPutFails = true`,
so the trace contains no KV put), the metadata store is left unchanged. -/
theorem upload_metadata_only_after_object_write
    (s : Stores) (nsH keyH pubH ctH : Option String)
    (body : List Nat) (now : String) (objectPutFails : Bool)
    (hKV : (BlobUploadEndpoint.handle s nsH keyH pubH ctH body now objectPutFails).2.1.KV
      ≠ s.KV) :
    objectPutFails = false ∧
    (BlobUploadEndpoint.handle s nsH keyH pubH ctH body now objectPutFails).2.2
      = [.objectPut (pubH = some "true") (upload_r2Key (nsH.getD "") (keyH.getD "")) body
           (orDefault ctH "application/octet-stream"),
         .kvPut (upload_kvKey (nsH.getD "") (keyH.getD ""))
           (uploadedMetadata (nsH.getD "") (keyH.getD "") pubH ctH body.length now)] := by
  unfold BlobUploadEndpoint.handle at hKV ⊢
  by_cases h1 : (strFalsy nsH || strFalsy keyH) = true
  · simp [h1] at hKV
  · by_cases h2 : body.length = 0
    · simp [h1, h2] at hKV
    · cases objectPutFails with
      | true => simp [h1, h2] at hKV
      | false => simp [h1, h2, uploadedMetadata, upload_r2Key, upload_kvKey]

/-- Witness for C2: a concrete successful upload in which the metadata store
did change, whose trace is the object put followed by the KV put. -/
theorem upload_metadata_only_after_object_write_witness :
    (false : Bool) = false ∧
    (BlobUploadEndpoint.handle emptyStores (some "docs") (some "readme.txt") none
        (some "text/plain") [104, 101, 108, 108, 111] "2024-01-01T00:00:00.000Z" false).2.2
      = [.objectPut (((none : Option String)) = some "true")
           (upload_r2Key ((some "docs" : Option String).getD "")
             ((some "readme.txt" : Option String).getD ""))
           [104, 101, 108, 108, 111]
           (orDefault (some "text/plain") "application/octet-stream"),
         .kvPut (upload_kvKey ((some "docs" : Option String).getD "")
             ((some "readme.txt" : Option String).getD ""))
           (uploadedMetadata ((some "docs" : Option String).getD "")
             ((some "readme.txt" : Option String).getD "") none (some "text/plain")
             ([104, 101, 108, 108, 111] : List Nat).length "2024-01-01T00:00:00.000Z")] :=
  upload_metadata_only_after_object_write emptyStores (some "docs") (some "readme.txt") none
    (some "text/plain") [104, 101, 108, 108, 111] "2024-01-01T00:00:00.000Z" false
    (fun h => by
      have h0 := congrFun h "__BLOB:docs:readme.txt"
      revert h0
      decide)

/-- C3: a direct upload whose payload has zero length (with identifiers
present, which are validated first) fails with the 400 "Empty file" error,
leaves all three stores untouched, and a subsequent stream-download of that
(namespace, key) — no record having pre-existed for it — returns the
`BlobNotFound` 404. -/
theorem upload_empty_payload_rejected
    (s : Stores) (ns key : String) (pubHeader ctHeader : Option String)
    (now : String) (objectPutFails : Bool)
    (hns : ns ≠ "") (hkey : key ≠ "")
    (hfresh : s.KV (download_kvKey ns key) = none) :
    (BlobUploadEndpoint.handle s (some ns) (some key) pubHeader ctHeader [] now
        objectPutFails).1 = .badRequest "Empty file" ∧
    (BlobUploadEndpoint.handle s (some ns) (some key) pubHeader ctHeader [] now
        objectPutFails).1.status = 400 ∧
    (BlobUploadEndpoint.handle s (some ns) (some key) pubHeader ctHeader [] now
        objectPutFails).2.1 = s ∧
    registerBlobDownloadRoute.handle
      (BlobUploadEndpoint.handle s (some ns) (some key) pubHeader ctHeader [] now
        objectPutFails).2.1 ns key = .blobNotFound ∧
    DownloadResult.blobNotFound.status = 404 := by
  have h : BlobUploadEndpoint.handle s (some ns) (some key) pubHeader ctHeader [] now
      objectPutFails = (.badRequest "Empty file", s, []) := by
    simp [BlobUploadEndpoint.handle, strFalsy, hns, hkey]
  rw [h]
  refine ⟨rfl, rfl, rfl, ?_, rfl⟩
  simp [registerBlobDownloadRoute.handle, hns, hkey, hfresh]

/-- Witness for C3: the empty-payload upload of `("docs", "readme.txt")`
against fresh stores fails 400 "Empty file", changes nothing, and the
follow-up download reports `BlobNotFound`. -/
theorem upload_empty_payload_rejected_witness :
    (BlobUploadEndpoint.handle emptyStores (some "docs") (some "readme.txt") none
        (some "text/plain") [] "2024-01-01T00:00:00.000Z" false).1
      = .badRequest "Empty file" ∧
    (BlobUploadEndpoint.handle emptyStores (some "docs") (some "readme.txt") none
        (some "text/plain") [] "2024-01-01T00:00:00.000Z" false).1.status = 400 ∧
    (BlobUploadEndpoint.handle emptyStores (some "docs") (some "readme.txt") none
        (some "text/plain") [] "2024-01-01T00:00:00.000Z" false).2.1 = emptyStores ∧
    registerBlobDownloadRoute.handle
      (BlobUploadEndpoint.handle emptyStores (some "docs") (some "readme.txt") none
        (some "text/plain") [] "2024-01-01T00:00:00.000Z" false).2.1 "docs" "readme.txt"
      = .blobNotFound ∧
    DownloadResult.blobNotFound.status = 404 :=
  upload_empty_payload_rejected emptyStores "docs" "readme.txt" none (some "text/plain")
    "2024-01-01T00:00:00.000Z" false (by decide) (by decide) rfl

/-- Success-branch characterisation of the presign handler: with configured
credentials and a body passing schema validation, it signs, writes the
provisional metadata under the derived KV key, and returns the URL. -/
lemma presign_success (s : Stores) (env : PresignEnvCreds) (b : PresignBodyRaw)
    (sign : String → String → String → Int → String) (now expiresAt : String)
    (hcreds : env.configured = true) (hparse : PresignUploadRequest.parseOk b = true) :
    BlobPresignUploadEndpoint.handle s env (some b) sign now expiresAt
      = (.ok (sign (if b.isPublic.getD false then "federise-objects-public"
              else "federise-objects")
            (presign_r2Key b.namespace' b.key) b.contentType b.size) expiresAt,
         { s with KV := (upd s.KV (presign_kvKey b.namespace' b.key)
             (presignMetadata b now)) },
         true) := by
  have h1 : (strFalsy env.R2_ACCOUNT_ID || strFalsy env.R2_ACCESS_KEY_ID
      || strFalsy env.R2_SECRET_ACCESS_KEY) = false := by
    simpa [PresignEnvCreds.configured] using hcreds
  simp [BlobPresignUploadEndpoint.handle, h1, hparse, presignMetadata]

/-- C4: after a successful presign call — configured credentials, body
passing validation, non-empty key, bytes not yet uploaded — the provisional
metadata record is already persisted when the URL is returned; a
get-reference for that (namespace, key) succeeds (200) and returns exactly
the provisional metadata; a stream-download at that point yields
`ObjectNotFound` ("Blob not found in storage"), a result distinct from
`BlobNotFound`. -/
theorem presign_then_getref_and_download
    (s : Stores) (env : PresignEnvCreds) (b : PresignBodyRaw)
    (sign : String → String → String → Int → String)
    (now expiresAt gatewayOrigin : String) (enc : String → String)
    (hcreds : env.configured = true)
    (hparse : PresignUploadRequest.parseOk b = true)
    (hkey : b.key ≠ "")
    (hnoObj : (if b.isPublic.getD false then s.R2_PUBLIC else s.R2)
        (presign_r2Key b.namespace' b.key) = none) :
    (BlobPresignUploadEndpoint.handle s env (some b) sign now expiresAt).1.status = 200 ∧
    (BlobPresignUploadEndpoint.handle s env (some b) sign now expiresAt).2.1.KV
        (presign_kvKey b.namespace' b.key) = some (presignMetadata b now) ∧
    (BlobGetEndpoint.handle
        (BlobPresignUploadEndpoint.handle s env (some b) sign now expiresAt).2.1
        b.namespace' b.key gatewayOrigin enc).metadata? = some (presignMetadata b now) ∧
    (BlobGetEndpoint.handle
        (BlobPresignUploadEndpoint.handle s env (some b) sign now expiresAt).2.1
        b.namespace' b.key gatewayOrigin enc).status = 200 ∧
    registerBlobDownloadRoute.handle
        (BlobPresignUploadEndpoint.handle s env (some b) sign now expiresAt).2.1
        b.namespace' b.key = .objectNotFound ∧
    DownloadResult.objectNotFound ≠ DownloadResult.blobNotFound := by
  have hns : b.namespace' ≠ "" := by
    have := hparse
    simp [PresignUploadRequest.parseOk, NamespaceValue.accepts] at this
    exact this.1
  rw [presign_success s env b sign now expiresAt hcreds hparse]
  refine ⟨rfl, upd_same _ _ _, ?_, ?_, ?_, by simp⟩
  · simp [BlobGetEndpoint.handle, getRef_kvKey, presign_kvKey, upd_same,
      GetRefResult.metadata?]
  · simp [BlobGetEndpoint.handle, getRef_kvKey, presign_kvKey, upd_same,
      GetRefResult.status]
  · by_cases hp : b.isPublic.getD false <;>
      simp_all [registerBlobDownloadRoute.handle, hns, hkey, download_kvKey,
        presign_kvKey, download_r2Key, presign_r2Key, upd_same, presignMetadata]

/-- Witness for C4: concrete presign of `("docs", "big.bin")`, declared size
7, private, against fresh stores and configured credentials. -/
theorem presign_then_getref_and_download_witness :
    (BlobPresignUploadEndpoint.handle emptyStores ⟨some "acct", some "ak", some "sk"⟩
        (some ⟨"docs", "big.bin", "application/zip", 7, none⟩)
        (fun _ _ _ _ => "https://signed.example") "2024-01-01T00:00:00.000Z"
        "2024-01-01T01:00:00.000Z").1.status = 200 ∧
    (BlobPresignUploadEndpoint.handle emptyStores ⟨some "acct", some "ak", some "sk"⟩
        (some ⟨"docs", "big.bin", "application/zip", 7, none⟩)
        (fun _ _ _ _ => "https://signed.example") "2024-01-01T00:00:00.000Z"
        "2024-01-01T01:00:00.000Z").2.1.KV (presign_kvKey "docs" "big.bin")
      = some (presignMetadata ⟨"docs", "big.bin", "application/zip", 7, none⟩
          "2024-01-01T00:00:00.000Z") ∧
    (BlobGetEndpoint.handle
        (BlobPresignUploadEndpoint.handle emptyStores ⟨some "acct", some "ak", some "sk"⟩
          (some ⟨"docs", "big.bin", "application/zip", 7, none⟩)
          (fun _ _ _ _ => "https://signed.example") "2024-01-01T00:00:00.000Z"
          "2024-01-01T01:00:00.000Z").2.1
        "docs" "big.bin" "https://gw.example" (fun x => x)).metadata?
      = some (presignMetadata ⟨"docs", "big.bin", "application/zip", 7, none⟩
          "2024-01-01T00:00:00.000Z") ∧
    (BlobGetEndpoint.handle
        (BlobPresignUploadEndpoint.handle emptyStores ⟨some "acct", some "ak", some "sk"⟩
          (some ⟨"docs", "big.bin", "application/zip", 7, none⟩)
          (fun _ _ _ _ => "https://signed.example") "2024-01-01T00:00:00.000Z"
          "2024-01-01T01:00:00.000Z").2.1
        "docs" "big.bin" "https://gw.example" (fun x => x)).status = 200 ∧
    registerBlobDownloadRoute.handle
        (BlobPresignUploadEndpoint.handle emptyStores ⟨some "acct", some "ak", some "sk"⟩
          (some ⟨"docs", "big.bin", "application/zip", 7, none⟩)
          (fun _ _ _ _ => "https://signed.example") "2024-01-01T00:00:00.000Z"
          "2024-01-01T01:00:00.000Z").2.1
        "docs" "big.bin" = .objectNotFound ∧
    DownloadResult.objectNotFound ≠ DownloadResult.blobNotFound :=
  presign_then_getref_and_download emptyStores ⟨some "acct", some "ak", some "sk"⟩
    ⟨"docs", "big.bin", "application/zip", 7, none⟩
    (fun _ _ _ _ => "https://signed.example") "2024-01-01T00:00:00.000Z"
    "2024-01-01T01:00:00.000Z" "https://gw.example" (fun x => x)
    (by decide) (by decide) (by decide) rfl

/-- C5 counterexample: a metadata key CAN equal a storage key derivable from
a different valid (non-empty) pair — the metadata key of `("a", "b")` is the
string `"__BLOB:a:b"`, which is exactly the storage key of the pair
`("__BLOB", "a:b")` (both components non-empty).  So "no metadata key ever
equals any storage key derivable from any (namespace, key) pair" is false. -/
theorem metadata_key_collides_with_foreign_storage_key :
    upload_kvKey "a" "b" = upload_r2Key "__BLOB" "a:b" ∧
    ("a" : String) ≠ "" ∧ ("b" : String) ≠ "" ∧
    ("__BLOB" : String) ≠ "" ∧ ("a:b" : String) ≠ "" := by
  refine ⟨by decide, by decide, by decide, by decide, by decide⟩

/-- C5 amended: the storage key is `namespace ++ ":" ++ key` and the metadata
key is the same pair under the reserved prefix `"__BLOB:"`; the metadata key
of a pair never equals the storage key of the *same* pair, and all four
operations (upload, download, get-reference, presign) derive both keys
identically.  (A metadata key can still coincide with the storage key of a
*different* pair whose namespace resolves the reserved prefix, e.g.
`("__BLOB", "a:b")` — the separator-ambiguity limitation; the two keyspaces
live in different physical stores, KV versus R2, so no stored record is
affected.) -/
theorem derived_keys_agree_and_prefix_separates_same_pair :
    (∀ ns key : String, upload_r2Key ns key = ns ++ ":" ++ key) ∧
    (∀ ns key : String, upload_kvKey ns key = "__BLOB:" ++ (ns ++ ":" ++ key)) ∧
    (∀ ns key : String, upload_kvKey ns key ≠ upload_r2Key ns key) ∧
    upload_r2Key = download_r2Key ∧ upload_r2Key = presign_r2Key ∧
    upload_kvKey = download_kvKey ∧ upload_kvKey = getRef_kvKey ∧
    upload_kvKey = presign_kvKey := by
  refine ⟨fun ns key => rfl, ?_, ?_, rfl, rfl, rfl, rfl, rfl⟩
  · intro ns key
    simp [upload_kvKey, String.append_assoc]
  · intro ns key h
    have hlen := congrArg String.length h
    have h7 : ("__BLOB:" : String).length = 7 := rfl
    have h1 : (":" : String).length = 1 := rfl
    simp only [upload_kvKey, upload_r2Key, String.length_append, h7, h1] at hlen
    omega

/-- C6: the visibility flag determines the physical store.  An upload with
visibility `isPub` (the parsed `x-blob-public === "true"` header) writes the
object into the matching bucket; the opposite bucket, if it did not hold the
object before, still does not hold it after; and the download path — which
selects its bucket from the stored metadata's `isPublic` field — finds and
streams the object even though the opposite bucket lacks it. -/
theorem visibility_selects_store
    (s : Stores) (ns key : String) (pubHeader ctHeader : Option String)
    (body : List Nat) (now : String)
    (hns : ns ≠ "") (hkey : key ≠ "") (hbody : body ≠ [])
    (hother : (if (pubHeader = some "true" : Bool) then s.R2 else s.R2_PUBLIC)
        (upload_r2Key ns key) = none) :
    (if (pubHeader = some "true" : Bool)
        then (BlobUploadEndpoint.handle s (some ns) (some key) pubHeader ctHeader body now
          false).2.1.R2_PUBLIC
        else (BlobUploadEndpoint.handle s (some ns) (some key) pubHeader ctHeader body now
          false).2.1.R2) (upload_r2Key ns key)
      = some ⟨body, orDefault ctHeader "application/octet-stream"⟩ ∧
    (if (pubHeader = some "true" : Bool)
        then (BlobUploadEndpoint.handle s (some ns) (some key) pubHeader ctHeader body now
          false).2.1.R2
        else (BlobUploadEndpoint.handle s (some ns) (some key) pubHeader ctHeader body now
          false).2.1.R2_PUBLIC) (upload_r2Key ns key) = none ∧
    registerBlobDownloadRoute.handle
        (BlobUploadEndpoint.handle s (some ns) (some key) pubHeader ctHeader body now
          false).2.1 ns key
      = .ok body (orDefault ctHeader "application/octet-stream") body.length := by
  rw [upload_success s ns key pubHeader ctHeader body now hns hkey hbody]
  have hct : orDefault ctHeader "application/octet-stream" ≠ "" :=
    orDefault_ne_empty ctHeader _ (by decide)
  by_cases hp : pubHeader = some "true"
  · refine ⟨by simp [hp, upd_same], by simpa [hp] using hother, ?_⟩
    simp [registerBlobDownloadRoute.handle, hns, hkey, download_kvKey, upload_kvKey,
      download_r2Key, upload_r2Key, upd_same, uploadedMetadata, hp,
      orDefault_some_of_ne _ _ hct]
  · refine ⟨by simp [hp, upd_same], by simpa [hp] using hother, ?_⟩
    simp [registerBlobDownloadRoute.handle, hns, hkey, download_kvKey, upload_kvKey,
      download_r2Key, upload_r2Key, upd_same, uploadedMetadata, hp,
      orDefault_some_of_ne _ _ hct]

/-- Witness for C6: a public upload of `("docs", "logo.png")` against fresh
stores lands in the public bucket, leaves the private bucket empty at that
key, and downloads correctly. -/
theorem visibility_selects_store_witness :
    (if ((some "true" : Option String) = some "true" : Bool)
        then (BlobUploadEndpoint.handle emptyStores (some "docs") (some "logo.png")
          (some "true") (some "image/png") [1, 2, 3] "2024-01-01T00:00:00.000Z"
          false).2.1.R2_PUBLIC
        else (BlobUploadEndpoint.handle emptyStores (some "docs") (some "logo.png")
          (some "true") (some "image/png") [1, 2, 3] "2024-01-01T00:00:00.000Z"
          false).2.1.R2) (upload_r2Key "docs" "logo.png")
      = some ⟨[1, 2, 3], orDefault (some "image/png") "application/octet-stream"⟩ ∧
    (if ((some "true" : Option String) = some "true" : Bool)
        then (BlobUploadEndpoint.handle emptyStores (some "docs") (some "logo.png")
          (some "true") (some "image/png") [1, 2, 3] "2024-01-01T00:00:00.000Z"
          false).2.1.R2
        else (BlobUploadEndpoint.handle emptyStores (some "docs") (some "logo.png")
          (some "true") (some "image/png") [1, 2, 3] "2024-01-01T00:00:00.000Z"
          false).2.1.R2_PUBLIC) (upload_r2Key "docs" "logo.png") = none ∧
    registerBlobDownloadRoute.handle
        (BlobUploadEndpoint.handle emptyStores (some "docs") (some "logo.png")
          (some "true") (some "image/png") [1, 2, 3] "2024-01-01T00:00:00.000Z"
          false).2.1 "docs" "logo.png"
      = .ok [1, 2, 3] (orDefault (some "image/png") "application/octet-stream")
          ([1, 2, 3] : List Nat).length :=
  visibility_selects_store emptyStores "docs" "logo.png" (some "true") (some "image/png")
    [1, 2, 3] "2024-01-01T00:00:00.000Z" (by decide) (by decide) (by decide) rfl

/-- C7 counterexample: the presign path does NOT fail with 400 on an empty
key.  The request schema validates only the namespace (`NamespaceValue`);
`key` is a plain `z.string()`, so a presign request with `key = ""` (and
configured credentials, valid namespace, positive size) returns 200, invokes
the signer, and writes a metadata record — a store write with an empty key,
where the claim demands a 400 before any store write. -/
theorem presign_accepts_empty_key :
    (BlobPresignUploadEndpoint.handle emptyStores ⟨some "acct", some "ak", some "sk"⟩
        (some ⟨"a", "", "text/plain", 1, none⟩) (fun _ _ _ _ => "https://signed.example")
        "2024-01-01T00:00:00.000Z" "2024-01-01T01:00:00.000Z").1
      = .ok "https://signed.example" "2024-01-01T01:00:00.000Z" ∧
    (BlobPresignUploadEndpoint.handle emptyStores ⟨some "acct", some "ak", some "sk"⟩
        (some ⟨"a", "", "text/plain", 1, none⟩) (fun _ _ _ _ => "https://signed.example")
        "2024-01-01T00:00:00.000Z" "2024-01-01T01:00:00.000Z").1.status ≠ 400 ∧
    (BlobPresignUploadEndpoint.handle emptyStores ⟨some "acct", some "ak", some "sk"⟩
        (some ⟨"a", "", "text/plain", 1, none⟩) (fun _ _ _ _ => "https://signed.example")
        "2024-01-01T00:00:00.000Z" "2024-01-01T01:00:00.000Z").2.1.KV
        (presign_kvKey "a" "")
      = some ⟨"", "a", 1, "text/plain", "2024-01-01T00:00:00.000Z", false⟩ ∧
    (BlobPresignUploadEndpoint.handle emptyStores ⟨some "acct", some "ak", some "sk"⟩
        (some ⟨"a", "", "text/plain", 1, none⟩) (fun _ _ _ _ => "https://signed.example")
        "2024-01-01T00:00:00.000Z" "2024-01-01T01:00:00.000Z").2.2 = true := by
  refine ⟨rfl, by decide, ?_, rfl⟩
  simp [BlobPresignUploadEndpoint.handle, strFalsy, PresignUploadRequest.parseOk,
    NamespaceValue.accepts, presign_kvKey, upd_same]

/-- C7 amended: empty-identifier rejection before any store write holds for
the direct upload path for both identifiers (missing or empty namespace or
key gives the 400 "Missing x-blob-namespace or x-blob-key header" and leaves
all stores untouched), and for the presign path for the namespace only
(with configured credentials, an empty namespace fails schema validation
with the 400 "Invalid request body", with no signer call and no store
write); the presign path does not reject an empty key. -/
theorem empty_identifier_rejection
    (s : Stores) (nsH keyH pubH ctH : Option String) (body : List Nat)
    (now : String) (objectPutFails : Bool)
    (env : PresignEnvCreds) (b : PresignBodyRaw)
    (sign : String → String → String → Int → String) (now2 expiresAt : String)
    (hbad : (strFalsy nsH || strFalsy keyH) = true)
    (hcreds : env.configured = true) (hnsEmpty : b.namespace' = "") :
    (BlobUploadEndpoint.handle s nsH keyH pubH ctH body now objectPutFails).1
      = .badRequest "Missing x-blob-namespace or x-blob-key header" ∧
    (BlobUploadEndpoint.handle s nsH keyH pubH ctH body now objectPutFails).1.status
      = 400 ∧
    (BlobUploadEndpoint.handle s nsH keyH pubH ctH body now objectPutFails).2.1 = s ∧
    (BlobPresignUploadEndpoint.handle s env (some b) sign now2 expiresAt).1
      = .invalidRequest ∧
    (BlobPresignUploadEndpoint.handle s env (some b) sign now2 expiresAt).1.status
      = 400 ∧
    (BlobPresignUploadEndpoint.handle s env (some b) sign now2 expiresAt).2.1 = s ∧
    (BlobPresignUploadEndpoint.handle s env (some b) sign now2 expiresAt).2.2 = false := by
  have hcreds' : (strFalsy env.R2_ACCOUNT_ID || strFalsy env.R2_ACCESS_KEY_ID
      || strFalsy env.R2_SECRET_ACCESS_KEY) = false := by
    simpa [PresignEnvCreds.configured] using hcreds
  have hparse : PresignUploadRequest.parseOk b = false := by
    simp [PresignUploadRequest.parseOk, NamespaceValue.accepts, hnsEmpty]
  refine ⟨?_, ?_, ?_, ?_, ?_, ?_, ?_⟩ <;>
    simp [BlobUploadEndpoint.handle, BlobPresignUploadEndpoint.handle, hbad, hcreds',
      hparse, UploadResult.status, PresignResult.status]

/-- Witness for the amended C7: a direct upload with an empty namespace
header and a presign with an empty namespace field, both against fresh
stores and configured credentials. -/
theorem empty_identifier_rejection_witness :
    (BlobUploadEndpoint.handle emptyStores (some "") (some "k") none none [1]
        "2024-01-01T00:00:00.000Z" false).1
      = .badRequest "Missing x-blob-namespace or x-blob-key header" ∧
    (BlobUploadEndpoint.handle emptyStores (some "") (some "k") none none [1]
        "2024-01-01T00:00:00.000Z" false).1.status = 400 ∧
    (BlobUploadEndpoint.handle emptyStores (some "") (some "k") none none [1]
        "2024-01-01T00:00:00.000Z" false).2.1 = emptyStores ∧
    (BlobPresignUploadEndpoint.handle emptyStores ⟨some "acct", some "ak", some "sk"⟩
        (some ⟨"", "k", "text/plain", 1, none⟩) (fun _ _ _ _ => "https://signed.example")
        "2024-01-01T00:00:00.000Z" "2024-01-01T01:00:00.000Z").1 = .invalidRequest ∧
    (BlobPresignUploadEndpoint.handle emptyStores ⟨some "acct", some "ak", some "sk"⟩
        (some ⟨"", "k", "text/plain", 1, none⟩) (fun _ _ _ _ => "https://signed.example")
        "2024-01-01T00:00:00.000Z" "2024-01-01T01:00:00.000Z").1.status = 400 ∧
    (BlobPresignUploadEndpoint.handle emptyStores ⟨some "acct", some "ak", some "sk"⟩
        (some ⟨"", "k", "text/plain", 1, none⟩) (fun _ _ _ _ => "https://signed.example")
        "2024-01-01T00:00:00.000Z" "2024-01-01T01:00:00.000Z").2.1 = emptyStores ∧
    (BlobPresignUploadEndpoint.handle emptyStores ⟨some "acct", some "ak", some "sk"⟩
        (some ⟨"", "k", "text/plain", 1, none⟩) (fun _ _ _ _ => "https://signed.example")
        "2024-01-01T00:00:00.000Z" "2024-01-01T01:00:00.000Z").2.2 = false :=
  empty_identifier_rejection emptyStores (some "") (some "k") none none [1]
    "2024-01-01T00:00:00.000Z" false ⟨some "acct", some "ak", some "sk"⟩
    ⟨"", "k", "text/plain", 1, none⟩ (fun _ _ _ _ => "https://signed.example")
    "2024-01-01T00:00:00.000Z" "2024-01-01T01:00:00.000Z" (by decide) (by decide) rfl

/-- C8: with configured credentials, a presign request whose declared size
is ≤ 0 fails schema validation with the 400 "Invalid request body" — the
signer is never invoked and no metadata record is written (all stores are
unchanged).  (Non-integral sizes, also rejected by the `.int()` refinement,
are not representable in this integer-valued model.) -/
theorem presign_nonpositive_size_rejected
    (s : Stores) (env : PresignEnvCreds) (b : PresignBodyRaw)
    (sign : String → String → String → Int → String) (now expiresAt : String)
    (hcreds : env.configured = true) (hsize : b.size ≤ 0) :
    (BlobPresignUploadEndpoint.handle s env (some b) sign now expiresAt).1
      = .invalidRequest ∧
    (BlobPresignUploadEndpoint.handle s env (some b) sign now expiresAt).1.status
      = 400 ∧
    (BlobPresignUploadEndpoint.handle s env (some b) sign now expiresAt).2.1 = s ∧
    (BlobPresignUploadEndpoint.handle s env (some b) sign now expiresAt).2.2 = false := by
  have hcreds' : (strFalsy env.R2_ACCOUNT_ID || strFalsy env.R2_ACCESS_KEY_ID
      || strFalsy env.R2_SECRET_ACCESS_KEY) = false := by
    simpa [PresignEnvCreds.configured] using hcreds
  have hparse : PresignUploadRequest.parseOk b = false := by
    simp [PresignUploadRequest.parseOk]
    intro
    omega
  refine ⟨?_, ?_, ?_, ?_⟩ <;>
    simp [BlobPresignUploadEndpoint.handle, hcreds', hparse, PresignResult.status]

/-- Witness for C8: presign of `("docs", "f.bin")` declaring size 0 with
configured credentials fails 400 with no signer call and no store write. -/
theorem presign_nonpositive_size_rejected_witness :
    (BlobPresignUploadEndpoint.handle emptyStores ⟨some "acct", some "ak", some "sk"⟩
        (some ⟨"docs", "f.bin", "application/zip", 0, none⟩)
        (fun _ _ _ _ => "https://signed.example") "2024-01-01T00:00:00.000Z"
        "2024-01-01T01:00:00.000Z").1 = .invalidRequest ∧
    (BlobPresignUploadEndpoint.handle emptyStores ⟨some "acct", some "ak", some "sk"⟩
        (some ⟨"docs", "f.bin", "application/zip", 0, none⟩)
        (fun _ _ _ _ => "https://signed.example") "2024-01-01T00:00:00.000Z"
        "2024-01-01T01:00:00.000Z").1.status = 400 ∧
    (BlobPresignUploadEndpoint.handle emptyStores ⟨some "acct", some "ak", some "sk"⟩
        (some ⟨"docs", "f.bin", "application/zip", 0, none⟩)
        (fun _ _ _ _ => "https://signed.example") "2024-01-01T00:00:00.000Z"
        "2024-01-01T01:00:00.000Z").2.1 = emptyStores ∧
    (BlobPresignUploadEndpoint.handle emptyStores ⟨some "acct", some "ak", some "sk"⟩
        (some ⟨"docs", "f.bin", "application/zip", 0, none⟩)
        (fun _ _ _ _ => "https://signed.example") "2024-01-01T00:00:00.000Z"
        "2024-01-01T01:00:00.000Z").2.2 = false :=
  presign_nonpositive_size_rejected emptyStores ⟨some "acct", some "ak", some "sk"⟩
    ⟨"docs", "f.bin", "application/zip", 0, none⟩
    (fun _ _ _ _ => "https://signed.example") "2024-01-01T00:00:00.000Z"
    "2024-01-01T01:00:00.000Z" (by decide) (by decide)

/-- C9: a presign request made while signing credentials are not configured
(any of the three env vars missing or empty) fails with the 503
`SigningUnavailable` response, writes no metadata (all stores unchanged) and
never invokes the signer — for every request body whatsoever. -/
theorem presign_unconfigured_rejected
    (s : Stores) (env : PresignEnvCreds) (rawBody : Option PresignBodyRaw)
    (sign : String → String → String → Int → String) (now expiresAt : String)
    (hcreds : env.configured = false) :
    (BlobPresignUploadEndpoint.handle s env rawBody sign now expiresAt).1
      = .signingUnavailable ∧
    (BlobPresignUploadEndpoint.handle s env rawBody sign now expiresAt).1.status
      = 503 ∧
    (BlobPresignUploadEndpoint.handle s env rawBody sign now expiresAt).2.1 = s ∧
    (BlobPresignUploadEndpoint.handle s env rawBody sign now expiresAt).2.2 = false := by
  have hcreds' : (strFalsy env.R2_ACCOUNT_ID || strFalsy env.R2_ACCESS_KEY_ID
      || strFalsy env.R2_SECRET_ACCESS_KEY) = true := by
    by_contra h
    simp only [Bool.not_eq_true] at h
    simp [PresignEnvCreds.configured, h] at hcreds
  refine ⟨?_, ?_, ?_, ?_⟩ <;>
    simp [BlobPresignUploadEndpoint.handle, hcreds', PresignResult.status]

/-- Witness for C9: a presign with an entirely valid body but an absent
`R2_SECRET_ACCESS_KEY` fails 503 with no write and no signer call. -/
theorem presign_unconfigured_rejected_witness :
    (BlobPresignUploadEndpoint.handle emptyStores ⟨some "acct", some "ak", none⟩
        (some ⟨"docs", "f.bin", "application/zip", 7, none⟩)
        (fun _ _ _ _ => "https://signed.example") "2024-01-01T00:00:00.000Z"
        "2024-01-01T01:00:00.000Z").1 = .signingUnavailable ∧
    (BlobPresignUploadEndpoint.handle emptyStores ⟨some "acct", some "ak", none⟩
        (some ⟨"docs", "f.bin", "application/zip", 7, none⟩)
        (fun _ _ _ _ => "https://signed.example") "2024-01-01T00:00:00.000Z"
        "2024-01-01T01:00:00.000Z").1.status = 503 ∧
    (BlobPresignUploadEndpoint.handle emptyStores ⟨some "acct", some "ak", none⟩
        (some ⟨"docs", "f.bin", "application/zip", 7, none⟩)
        (fun _ _ _ _ => "https://signed.example") "2024-01-01T00:00:00.000Z"
        "2024-01-01T01:00:00.000Z").2.1 = emptyStores ∧
    (BlobPresignUploadEndpoint.handle emptyStores ⟨some "acct", some "ak", none⟩
        (some ⟨"docs", "f.bin", "application/zip", 7, none⟩)
        (fun _ _ _ _ => "https://signed.example") "2024-01-01T00:00:00.000Z"
        "2024-01-01T01:00:00.000Z").2.2 = false :=
  presign_unconfigured_rejected emptyStores ⟨some "acct", some "ak", none⟩
    (some ⟨"docs", "f.bin", "application/zip", 7, none⟩)
    (fun _ _ _ _ => "https://signed.example") "2024-01-01T00:00:00.000Z"
    "2024-01-01T01:00:00.000Z" (by decide)

/-- C10: the credential check runs before the body is parsed or validated.
With unconfigured credentials, every request — including one whose body is
malformed JSON (`rawBody = none`) or declares a non-positive size — gets the
503 `SigningUnavailable`, never the 400 `InvalidRequest`; by contraposition
the 400 branch is reachable only with configured credentials. -/
theorem presign_credentials_checked_before_parse
    (s : Stores) (env : PresignEnvCreds) (rawBody : Option PresignBodyRaw)
    (sign : String → String → String → Int → String) (now expiresAt : String)
    (hcreds : env.configured = false) :
    (BlobPresignUploadEndpoint.handle s env rawBody sign now expiresAt).1
      = .signingUnavailable ∧
    (BlobPresignUploadEndpoint.handle s env rawBody sign now expiresAt).1
      ≠ .invalidRequest ∧
    (BlobPresignUploadEndpoint.handle s env rawBody sign now expiresAt).1.status
      ≠ 400 := by
  have hcreds' : (strFalsy env.R2_ACCOUNT_ID || strFalsy env.R2_ACCESS_KEY_ID
      || strFalsy env.R2_SECRET_ACCESS_KEY) = true := by
    by_contra h
    simp only [Bool.not_eq_true] at h
    simp [PresignEnvCreds.configured, h] at hcreds
  refine ⟨?_, ?_, ?_⟩ <;>
    simp [BlobPresignUploadEndpoint.handle, hcreds', PresignResult.status]

/-- Witness for C10: with unconfigured credentials and a malformed body
(`c.req.json()` would throw) as well as a non-positive declared size, the
result is the 503, not a 400.  Instantiated at the malformed body. -/
theorem presign_credentials_checked_before_parse_witness :
    (BlobPresignUploadEndpoint.handle emptyStores ⟨none, some "ak", some "sk"⟩ none
        (fun _ _ _ _ => "https://signed.example") "2024-01-01T00:00:00.000Z"
        "2024-01-01T01:00:00.000Z").1 = .signingUnavailable ∧
    (BlobPresignUploadEndpoint.handle emptyStores ⟨none, some "ak", some "sk"⟩ none
        (fun _ _ _ _ => "https://signed.example") "2024-01-01T00:00:00.000Z"
        "2024-01-01T01:00:00.000Z").1 ≠ .invalidRequest ∧
    (BlobPresignUploadEndpoint.handle emptyStores ⟨none, some "ak", some "sk"⟩ none
        (fun _ _ _ _ => "https://signed.example") "2024-01-01T00:00:00.000Z"
        "2024-01-01T01:00:00.000Z").1.status ≠ 400 :=
  presign_credentials_checked_before_parse emptyStores ⟨none, some "ak", some "sk"⟩ none
    (fun _ _ _ _ => "https://signed.example") "2024-01-01T00:00:00.000Z"
    "2024-01-01T01:00:00.000Z" (by decide)

end FederiseDeploy
